import Mathlib

/-
Verification of the zb-search-autocomplete widget (src/unnamed/part_000,
the Lit component `ZbSearchAutocomplete`).

The component's reactive fields (`searchQuery`, `results`, `loading`,
`open`, `debounceTimer`) are embedded as a record `SearchState`; each
handler becomes a pure function from state to state plus the list of
CustomEvents it dispatches.  `window.setTimeout` is modelled by a pool of
pending timer ids (`pendingTimers`, fresh ids from `nextTimerId`; the
component's `debounceTimer` field stores the last armed id, and
`clearTimeout` removes that id from the pool).  The async `performSearch`
is split at its only suspension point (the `await fetch`): the part before
the await is `performSearchStart`, and `resolveFetch` is the continuation
receiving either a decoded payload (`some data`) or a transport/decode
failure (`none`, the `catch` branch; the `finally` clears `loading` in
both).  In the delegated branch (`apiEndpoint = ""`) there is no await, so
the whole body - including the `finally` - runs to completion inside
`performSearchStart`.

One definition, `highlightMatch`, is embedded not from part_000 but from
the second variant of the component that the repository appends to
src/README.md: it is the repository's only query-highlighting code, and
it is stated here to compare part_000's actual label rendering against it.
-/

namespace ZbSearch

structure ProductSuggestion where
  name : String
  image : Option String
  url : Option String
deriving DecidableEq

structure PageSuggestion where
  name : String
  url : Option String
deriving DecidableEq

/-- the `SearchResults` interface: three independently optional sequences. -/
structure SearchResults where
  suggestions : Option (List String)
  products : Option (List ProductSuggestion)
  pages : Option (List PageSuggestion)
deriving DecidableEq

/-- the empty object literal assigned to `this.results`: every field absent. -/
def emptyResults : SearchResults :=
  { suggestions := none, products := none, pages := none }

/-- a GET request issued by the self-fetch branch of `performSearch`. -/
structure FetchRequest where
  endpoint : String
  query : String
deriving DecidableEq

/-- the CustomEvents the component dispatches, with their detail payloads.
the `suggestionClick` detail carries exactly the suggestion text and the
type tag - the component passes no url to `handleSuggestionClick`. -/
inductive Event
  | searchInput (query : String)
  | searchSubmit (query : String)
  | searchClear
  | searchClose
  | suggestionClick (suggestion : String) (type : String)
deriving DecidableEq

/-- the component's reactive state plus the timer model. -/
structure SearchState where
  placeholder : String
  apiEndpoint : String
  debounceDelay : Nat
  openFlag : Bool
  searchQuery : String
  results : SearchResults
  loading : Bool
  debounceTimer : Option Nat
  pendingTimers : List Nat
  nextTimerId : Nat
  inFlight : Option FetchRequest
deriving DecidableEq

/-- initial field values of a freshly constructed component; the host may
configure `apiEndpoint`.  Timer ids start at 1, mirroring the positive
ids returned by `window.setTimeout` (the code tests `if (this.debounceTimer)`,
i.e. truthiness). -/
def initState (endpoint : String) : SearchState :=
  { placeholder := "Search"
    apiEndpoint := endpoint
    debounceDelay := 300
    openFlag := false
    searchQuery := ""
    results := emptyResults
    loading := false
    debounceTimer := none
    pendingTimers := []
    nextTimerId := 1
    inFlight := none }

/-- the JS `trim()`: strip leading and trailing whitespace (written over
the character list so that proofs can evaluate it). -/
def strTrim (s : String) : String :=
  String.mk (((s.toList.dropWhile Char.isWhitespace).reverse.dropWhile Char.isWhitespace).reverse)

/-- the JS `toLowerCase()` on the character list. -/
def strToLower (s : String) : String :=
  String.mk (s.toList.map Char.toLower)

/-- the `clearTimeout(this.debounceTimer)` guarded by truthiness of the
stored id; note the code does not null the `debounceTimer` field. -/
def clearStoredTimer (s : SearchState) : SearchState :=
  match s.debounceTimer with
  | some id => { s with pendingTimers := s.pendingTimers.erase id }
  | none => s

/-- the handler `handleInput`: store the raw value, clear the previous timer, dispatch
`search-input`, then either open and arm a fresh timer (non-blank trim)
or close and reset the payload. -/
def handleInput (s : SearchState) (value : String) : SearchState × List Event :=
  let s1 := { s with searchQuery := value }
  let s2 := clearStoredTimer s1
  let evs := [Event.searchInput s2.searchQuery]
  if strTrim s2.searchQuery ≠ "" then
    ({ s2 with
        openFlag := true
        pendingTimers := s2.pendingTimers ++ [s2.nextTimerId]
        debounceTimer := some s2.nextTimerId
        nextTimerId := s2.nextTimerId + 1 }, evs)
  else
    ({ s2 with openFlag := false, results := emptyResults }, evs)

/-- state transition of `handleInput` alone (the dispatched event dropped). -/
def handleInputState (s : SearchState) (value : String) : SearchState :=
  (handleInput s value).1

/-- the part of `performSearch` up to its only suspension point.  Guard:
blank trimmed query returns at once.  Self-fetch branch sets `loading`
and issues the request; the delegated branch has an empty `try` body, so
its `finally` resets `loading` before the function returns. -/
def performSearchStart (s : SearchState) : SearchState × List Event × Option FetchRequest :=
  if strTrim s.searchQuery = "" then (s, [], none)
  else if s.apiEndpoint ≠ "" then
    ({ s with
        loading := true
        inFlight := some { endpoint := s.apiEndpoint, query := s.searchQuery } },
      [], some { endpoint := s.apiEndpoint, query := s.searchQuery })
  else
    let s1 := { s with loading := true }
    ({ s1 with loading := false }, [], none)

/-- continuation of the self-fetch `await`: `some data` is the decoded
response (`this.results = data`), `none` is any transport or decode
failure, handled by the `catch` (results are reset to the empty object,
and only a console log - no event).  The `finally` clears `loading` either way. -/
def resolveFetch (s : SearchState) (response : Option SearchResults) : SearchState × List Event :=
  match s.inFlight with
  | none => (s, [])
  | some _ =>
    match response with
    | some data => ({ s with results := data, loading := false, inFlight := none }, [])
    | none => ({ s with results := emptyResults, loading := false, inFlight := none }, [])

/-- public `setResults`: replace the payload wholesale and clear `loading`. -/
def setResults (s : SearchState) (results : SearchResults) : SearchState :=
  { s with results := results, loading := false }

/-- the handler `handleSubmit`: preventDefault, dispatch `search-submit` with the query. -/
def handleSubmit (s : SearchState) : SearchState × List Event :=
  (s, [Event.searchSubmit s.searchQuery])

/-- the handler `handleClear`: empty the query, reset the payload, close, dispatch
`search-clear` (and refocus the input - no state effect).  Nothing here
touches `debounceTimer` or the pending timer pool. -/
def handleClear (s : SearchState) : SearchState × List Event :=
  ({ s with searchQuery := "", results := emptyResults, openFlag := false },
    [Event.searchClear])

/-- the handler `handleClose`: close the dropdown and dispatch `search-close`. -/
def handleClose (s : SearchState) : SearchState × List Event :=
  ({ s with openFlag := false }, [Event.searchClose])

/-- the handler `handleSuggestionClick`: set the query to the clicked text
and dispatch `suggestion-click` whose detail holds the suggestion text
and the type tag. -/
def handleSuggestionClick (s : SearchState) (suggestion : String) (type : String) :
    SearchState × List Event :=
  ({ s with searchQuery := suggestion }, [Event.suggestionClick suggestion type])

/-- truthiness of `o?.length` for an optional sequence: present and non-empty. -/
def hasItems {α : Type} (o : Option (List α)) : Bool :=
  match o with
  | some l => !l.isEmpty
  | none => false

/-- one rendered text span; `emphasized` marks the bold/highlight class. -/
structure Span where
  text : String
  emphasized : Bool
deriving DecidableEq

/-- how `renderSuggestions` renders one label: the template is a single
plain span of class suggestion-text interpolating the suggestion string;
the current query plays no part. -/
def renderSuggestionLabel (label : String) : List Span :=
  [{ text := label, emphasized := false }]

/-- how `renderProducts` renders one product name: a single plain span of
class product-name interpolating the product name. -/
def renderProductLabel (label : String) : List Span :=
  [{ text := label, emphasized := false }]

/-- the span lists shown by the suggestions section, one per item, or
`none` when the section is not drawn (absent or empty sequence). -/
def renderSuggestionItems (s : SearchState) : Option (List (List Span)) :=
  if hasItems s.results.suggestions then
    some ((s.results.suggestions.getD []).map renderSuggestionLabel)
  else none

/-- first index at which `needle` occurs as a contiguous sublist of `hay`. -/
def findFirstMatch (hay needle : List Char) : Option Nat :=
  match hay with
  | [] => if needle.isEmpty then some 0 else none
  | _ :: t =>
    if needle.isPrefixOf hay then some 0
    else (findFirstMatch t needle).map (· + 1)

/-- whether the query occurs case-insensitively in the label. -/
def occursIn (label query : String) : Bool :=
  (findFirstMatch (strToLower label).toList (strToLower query).toList).isSome

/-- the `highlightMatch` helper of the component variant appended to
src/README.md (lines 587-605), the repository's only implementation of
query highlighting (part_000 has none): a falsy (empty) query returns
the bare text; otherwise `indexOf` of the lowercased query in the
lowercased text either fails, giving a single plain span, or yields the
index at which the text splits into before / bold match / after, the
match taken from the original-case text with the query's length. -/
def highlightMatch (text query : String) : List Span :=
  if query = "" then [{ text := text, emphasized := false }]
  else
    match findFirstMatch (strToLower text).toList (strToLower query).toList with
    | none => [{ text := text, emphasized := false }]
    | some index =>
      let cs := text.toList
      let qlen := query.toList.length
      [{ text := String.mk (cs.take index), emphasized := false },
       { text := String.mk ((cs.drop index).take qlen), emphasized := true },
       { text := String.mk ((cs.drop index).drop qlen), emphasized := false }]

/-- the dropdown sections, in template order. -/
inductive RenderSection
  | loading
  | suggestions
  | products
  | pages
  | empty
deriving DecidableEq

/-- the `render` method's section selection: nothing when the dropdown is
closed; otherwise `renderLoading`, `renderSuggestions`, `renderProducts`,
`renderPages` and `renderEmpty` each decide independently whether to
draw (`renderEmpty` alone looks at `loading` and the query). -/
def renderSections (s : SearchState) : List RenderSection :=
  if !s.openFlag then []
  else
    (if s.loading then [RenderSection.loading] else []) ++
    (if hasItems s.results.suggestions then [RenderSection.suggestions] else []) ++
    (if hasItems s.results.products then [RenderSection.products] else []) ++
    (if hasItems s.results.pages then [RenderSection.pages] else []) ++
    (if !s.loading && s.searchQuery != "" && !hasItems s.results.suggestions &&
        !hasItems s.results.products && !hasItems s.results.pages
     then [RenderSection.empty] else [])

/-- the externally triggerable steps of one widget instance: user events,
the host's `setResults` call, a pending timer firing, and the fetch
promise settling. -/
inductive Action
  | input (value : String)
  | submit
  | clear
  | close
  | pick (suggestion : String) (type : String)
  | setRes (results : SearchResults)
  | fire (id : Nat)
  | resolve (response : Option SearchResults)

/-- apply one step to the state.  A timer may fire only while it is
pending; firing consumes it and runs `performSearch` (up to the await).
A fetch may settle only while a request is in flight. -/
def applyAction (s : SearchState) (a : Action) : SearchState :=
  match a with
  | Action.input v => (handleInput s v).1
  | Action.submit => (handleSubmit s).1
  | Action.clear => (handleClear s).1
  | Action.close => (handleClose s).1
  | Action.pick n t => (handleSuggestionClick s n t).1
  | Action.setRes r => setResults s r
  | Action.fire id =>
    if id ∈ s.pendingTimers then
      (performSearchStart { s with pendingTimers := s.pendingTimers.erase id }).1
    else s
  | Action.resolve r => (resolveFetch s r).1

/-- run a sequence of steps from a state. -/
def runActions (s : SearchState) (acts : List Action) : SearchState :=
  acts.foldl applyAction s

/-- timer well-formedness: the pending pool is empty or consists exactly of
the id stored in the `debounceTimer` field (so at most one callback is
ever pending, and `clearTimeout` can always reach it). -/
def timersWF (s : SearchState) : Prop :=
  s.pendingTimers = [] ∨ s.pendingTimers = s.debounceTimer.toList

instance (s : SearchState) : Decidable (timersWF s) := by
  unfold timersWF
  infer_instance

/-- the state of a fresh delegated-mode widget after typing "ash". -/
def sAfterAsh : SearchState := handleInputState (initState "") "ash"

/-- a payload holding the single text suggestion "Ash Trays". -/
def ashPayload : SearchResults :=
  { suggestions := some ["Ash Trays"], products := none, pages := none }

/-- a self-fetch widget that typed "ash", received a payload from the host,
and whose debounce timer then fired: the fetch is now in flight. -/
def sC4 : SearchState :=
  runActions (initState "https://api.example.com/search")
    [Action.input "ash", Action.setRes ashPayload, Action.fire 1]

/-- a payload holding the single page entry Pharmacy. -/
def pagePayload : SearchResults :=
  { suggestions := none, products := none,
    pages := some [{ name := "Pharmacy", url := some "/pages/pharmacy" }] }

/-- a delegated-mode widget that typed "ph" and received the page payload. -/
def sPick : SearchState :=
  runActions (initState "") [Action.input "ph", Action.setRes pagePayload]

/-- a delegated-mode widget that typed "ash" and received the suggestion
payload: the dropdown shows the suggestions section. -/
def sAshLoaded : SearchState :=
  runActions (initState "") [Action.input "ash", Action.setRes ashPayload]

@[simp] theorem clearStoredTimer_searchQuery (s : SearchState) :
    (clearStoredTimer s).searchQuery = s.searchQuery := by
  unfold clearStoredTimer
  cases s.debounceTimer <;> rfl

@[simp] theorem clearStoredTimer_results (s : SearchState) :
    (clearStoredTimer s).results = s.results := by
  unfold clearStoredTimer
  cases s.debounceTimer <;> rfl

@[simp] theorem clearStoredTimer_nextTimerId (s : SearchState) :
    (clearStoredTimer s).nextTimerId = s.nextTimerId := by
  unfold clearStoredTimer
  cases s.debounceTimer <;> rfl

@[simp] theorem clearStoredTimer_openFlag (s : SearchState) :
    (clearStoredTimer s).openFlag = s.openFlag := by
  unfold clearStoredTimer
  cases s.debounceTimer <;> rfl

theorem clearStoredTimer_pending_of_wf (s : SearchState) (h : timersWF s) :
    (clearStoredTimer s).pendingTimers = [] := by
  unfold clearStoredTimer
  rcases h with h | h
  · cases s.debounceTimer <;> simp [h]
  · cases hd : s.debounceTimer with
    | none => rw [hd] at h; simpa using h
    | some id => rw [hd] at h; simp [h]

theorem handleInputState_of_ne (s : SearchState) (v : String)
    (h : timersWF s) (hv : strTrim v ≠ "") :
    (handleInputState s v).pendingTimers = [s.nextTimerId] ∧
    (handleInputState s v).debounceTimer = some s.nextTimerId ∧
    (handleInputState s v).searchQuery = v ∧
    (handleInputState s v).openFlag = true := by
  have hp : (clearStoredTimer { s with searchQuery := v }).pendingTimers = [] :=
    clearStoredTimer_pending_of_wf _ h
  unfold handleInputState handleInput
  simp [hv, hp]

theorem handleInputState_of_empty (s : SearchState) (v : String)
    (h : timersWF s) (hv : strTrim v = "") :
    (handleInputState s v).openFlag = false ∧
    (handleInputState s v).results = emptyResults ∧
    (handleInputState s v).pendingTimers = [] := by
  have hp : (clearStoredTimer { s with searchQuery := v }).pendingTimers = [] :=
    clearStoredTimer_pending_of_wf _ h
  unfold handleInputState handleInput
  simp [hv, hp]

theorem handleInput_wf (s : SearchState) (v : String) (h : timersWF s) :
    timersWF (handleInputState s v) := by
  by_cases hv : strTrim v = ""
  · exact Or.inl (handleInputState_of_empty s v h hv).2.2
  · obtain ⟨h1, h2, _, _⟩ := handleInputState_of_ne s v h hv
    exact Or.inr (by rw [h1, h2]; rfl)

theorem foldl_handleInput_wf (vs : List String) (s : SearchState) (h : timersWF s) :
    timersWF (List.foldl handleInputState s vs) := by
  induction vs generalizing s with
  | nil => exact h
  | cons v t ih => exact ih _ (handleInput_wf s v h)

theorem performSearchStart_of_blank (s : SearchState) (h : strTrim s.searchQuery = "") :
    performSearchStart s = (s, [], none) := by
  unfold performSearchStart
  rw [if_pos h]

/-- Claim C1, counterexample: in the reachable state that typed "ash" and
holds the suggestion "Ash Trays", the displayed label renders as the one
plain span "Ash Trays", not as the three spans the claim requires, even
though the repository's own highlighting helper (the `highlightMatch` of
the variant appended to src/README.md, which part_000's templates never
call) would have produced exactly those three spans. -/
theorem render_label_not_split_at_ash_trays :
    sAshLoaded.searchQuery = "ash" ∧
    renderSuggestionItems sAshLoaded =
      some [[{ text := "Ash Trays", emphasized := false }]] ∧
    highlightMatch "Ash Trays" "ash" =
      [{ text := "", emphasized := false }, { text := "Ash", emphasized := true },
       { text := " Trays", emphasized := false }] ∧
    renderSuggestionLabel "Ash Trays" ≠ highlightMatch "Ash Trays" "ash" := by
  decide

/-- Claim C1, amended: every displayed label renders as exactly one
unemphasized span holding the label verbatim, with no query-dependent
splitting or emphasis; this agrees with the repository's `highlightMatch`
helper (README.md component variant) precisely when the query is empty
or has no case-insensitive occurrence in the label - in every other case
`highlightMatch` would split the label into three spans and part_000's
rendering does not. -/
theorem render_label_single_span (label query : String) :
    renderSuggestionLabel label = [{ text := label, emphasized := false }] ∧
    renderProductLabel label = [{ text := label, emphasized := false }] ∧
    (highlightMatch label query = renderSuggestionLabel label ↔
      query = "" ∨ occursIn label query = false) := by
  refine ⟨rfl, rfl, ?_⟩
  unfold highlightMatch occursIn renderSuggestionLabel
  by_cases hq : query = ""
  · simp [hq]
  · cases hm : findFirstMatch (strToLower label).toList (strToLower query).toList with
    | none => simp [hq, hm]
    | some i => simp [hq, hm]

/-- Claim C2, counterexample: in the reachable state holding the page entry
Pharmacy with the dropdown open, picking it leaves the dropdown open
(OpenFlag stays true, the claim requires false), and the dispatched
notification is exactly `suggestion-click` with detail suggestion and
type - it carries no navigation target. -/
theorem pick_leaves_dropdown_open :
    sPick.openFlag = true ∧
    (handleSuggestionClick sPick "Pharmacy" "page").1.openFlag = true ∧
    (handleSuggestionClick sPick "Pharmacy" "page").2 =
      [Event.suggestionClick "Pharmacy" "page"] := by
  decide

/-- Claim C2, amended: the Pick interaction sets Query to the picked item's
display name and emits a single `suggestion-click` notification carrying
the display name and the category tag only (no navigation target field);
it leaves OpenFlag, ResultPayload and LoadingFlag unchanged - in
particular the dropdown is not closed. -/
theorem pick_sets_query_and_emits (s : SearchState) (n t : String) :
    (handleSuggestionClick s n t).1.searchQuery = n ∧
    (handleSuggestionClick s n t).1.openFlag = s.openFlag ∧
    (handleSuggestionClick s n t).1.results = s.results ∧
    (handleSuggestionClick s n t).1.loading = s.loading ∧
    (handleSuggestionClick s n t).2 = [Event.suggestionClick n t] :=
  ⟨rfl, rfl, rfl, rfl, rfl⟩

/-- Claim C3, counterexample: with no endpoint configured and the non-blank
query "ash", firing the Search Trigger leaves LoadingFlag false at its
completion (the `finally` clause reset it) and emits no notification and
no request, although no payload was recorded by any ingestion. -/
theorem delegated_trigger_resets_loading :
    sAfterAsh.apiEndpoint = "" ∧
    strTrim sAfterAsh.searchQuery ≠ "" ∧
    (performSearchStart sAfterAsh).1.loading = false ∧
    (performSearchStart sAfterAsh).2.1 = [] ∧
    (performSearchStart sAfterAsh).2.2 = none := by
  decide

/-- Claim C3, amended: under the delegated strategy the Search Trigger
emits no notification and issues no request; it sets LoadingFlag true
only transiently inside its own body, whose `finally` clause resets it
before returning, so at completion LoadingFlag is false regardless of
whether any payload was ever recorded (the host observes the query from
the keystroke handler's input notification instead). -/
theorem delegated_trigger_no_notification (s : SearchState)
    (h1 : s.apiEndpoint = "") (h2 : strTrim s.searchQuery ≠ "") :
    performSearchStart s = ({ s with loading := false }, [], none) := by
  unfold performSearchStart
  rw [if_neg h2, if_neg (by simp [h1])]

/-- witness for `delegated_trigger_no_notification` at the delegated-mode
state that typed "ash". -/
theorem delegated_trigger_no_notification_witness :
    performSearchStart sAfterAsh = ({ sAfterAsh with loading := false }, [], none) :=
  delegated_trigger_no_notification sAfterAsh (by decide) (by decide)

/-- Claim C4, counterexample: the state reached by typing "ash" into a
self-fetch widget, receiving the "Ash Trays" payload, and letting the
debounce timer fire, has LoadingFlag true while the suggestions section
is drawn - the loading indicator and a non-empty result section render
simultaneously. -/
theorem loading_and_suggestions_coexist :
    sC4.loading = true ∧
    RenderSection.loading ∈ renderSections sC4 ∧
    RenderSection.suggestions ∈ renderSections sC4 := by
  decide

/-- Claim C4, amended: while the dropdown is open, the loading indicator
and the three result sections are each selected independently - a
non-empty section renders whether or not LoadingFlag is true - and only
the empty-state message is suppressed by loading. -/
theorem render_sections_independent (s : SearchState) (h : s.openFlag = true) :
    (RenderSection.loading ∈ renderSections s ↔ s.loading = true) ∧
    (RenderSection.suggestions ∈ renderSections s ↔ hasItems s.results.suggestions = true) ∧
    (RenderSection.products ∈ renderSections s ↔ hasItems s.results.products = true) ∧
    (RenderSection.pages ∈ renderSections s ↔ hasItems s.results.pages = true) ∧
    (RenderSection.empty ∈ renderSections s → s.loading = false) := by
  cases h1 : s.loading <;> cases h2 : hasItems s.results.suggestions <;>
    cases h3 : hasItems s.results.products <;> cases h4 : hasItems s.results.pages <;>
    cases h5 : (s.searchQuery != "") <;>
    simp [renderSections, h, h1, h2, h3, h4, h5]

/-- witness for `render_sections_independent` at the in-flight self-fetch
state `sC4`. -/
theorem render_sections_independent_witness :
    (RenderSection.loading ∈ renderSections sC4 ↔ sC4.loading = true) ∧
    (RenderSection.suggestions ∈ renderSections sC4 ↔ hasItems sC4.results.suggestions = true) ∧
    (RenderSection.products ∈ renderSections sC4 ↔ hasItems sC4.results.products = true) ∧
    (RenderSection.pages ∈ renderSections sC4 ↔ hasItems sC4.results.pages = true) ∧
    (RenderSection.empty ∈ renderSections sC4 → sC4.loading = false) :=
  render_sections_independent sC4 (by decide)

/-- Claim C5, counterexample: after typing "ash" a timer is pending, and
after the Clear interaction returns that timer is still pending - Clear
cancels nothing. -/
theorem clear_keeps_pending_timer :
    sAfterAsh.pendingTimers = [1] ∧
    (handleClear sAfterAsh).1.pendingTimers = [1] ∧
    (handleClear sAfterAsh).1.pendingTimers ≠ [] := by
  decide

/-- Claim C5, amended: the Clear interaction does not touch the pending
timer pool or the stored timer id; the previously armed timer remains
pending, but because Clear empties the query, the Search Trigger it
later invokes returns immediately as a no-op - no state change, no
notification, no request. -/
theorem clear_then_fire_noop (s : SearchState) :
    (handleClear s).1.pendingTimers = s.pendingTimers ∧
    (handleClear s).1.debounceTimer = s.debounceTimer ∧
    performSearchStart (handleClear s).1 = ((handleClear s).1, [], none) :=
  ⟨rfl, rfl, performSearchStart_of_blank _ (show strTrim "" = "" by decide)⟩

/-- Claim C6: after any burst of keystrokes with no intervening timer
expiry whose final value has a non-blank trim, exactly one debounce
callback is pending (each keystroke cancelled and replaced the previous
timer), the stored query is the last keystroke's value - so the single
Search Trigger that fires will use it - and the one-pending-timer
well-formedness is preserved. -/
theorem debounce_last_keystroke_wins (s : SearchState) (vs : List String) (v : String)
    (h : timersWF s) (hv : strTrim v ≠ "") :
    (handleInputState (List.foldl handleInputState s vs) v).pendingTimers.length = 1 ∧
    (handleInputState (List.foldl handleInputState s vs) v).searchQuery = v ∧
    timersWF (handleInputState (List.foldl handleInputState s vs) v) := by
  have hw := foldl_handleInput_wf vs s h
  obtain ⟨h1, _, h3, _⟩ := handleInputState_of_ne _ v hw hv
  exact ⟨by rw [h1]; rfl, h3, handleInput_wf _ v hw⟩

/-- witness for `debounce_last_keystroke_wins` on the burst "a", "as",
"ash" typed into a fresh widget. -/
theorem debounce_last_keystroke_wins_witness :
    (handleInputState (List.foldl handleInputState (initState "") ["a", "as"]) "ash").pendingTimers.length = 1 ∧
    (handleInputState (List.foldl handleInputState (initState "") ["a", "as"]) "ash").searchQuery = "ash" ∧
    timersWF (handleInputState (List.foldl handleInputState (initState "") ["a", "as"]) "ash") :=
  debounce_last_keystroke_wins (initState "") ["a", "as"] "ash" (by decide) (by decide)

/-- Claim C7: a keystroke whose trimmed value is blank synchronously closes
the dropdown, resets the payload to empty (all three sequences absent),
leaves no timer pending, and dispatches only the input notification. -/
theorem empty_keystroke_closes_and_clears (s : SearchState) (q : String)
    (h : timersWF s) (hq : strTrim q = "") :
    (handleInput s q).1.openFlag = false ∧
    (handleInput s q).1.results = emptyResults ∧
    (handleInput s q).1.pendingTimers = [] ∧
    (handleInput s q).2 = [Event.searchInput q] := by
  obtain ⟨h1, h2, h3⟩ := handleInputState_of_empty s q h hq
  refine ⟨h1, h2, h3, ?_⟩
  unfold handleInput
  simp [hq]

/-- witness for `empty_keystroke_closes_and_clears` on a whitespace-only
keystroke into a fresh widget. -/
theorem empty_keystroke_closes_and_clears_witness :
    (handleInput (initState "") "   ").1.openFlag = false ∧
    (handleInput (initState "") "   ").1.results = emptyResults ∧
    (handleInput (initState "") "   ").1.pendingTimers = [] ∧
    (handleInput (initState "") "   ").2 = [Event.searchInput "   "] :=
  empty_keystroke_closes_and_clears (initState "") "   " (by decide) (by decide)

/-- Claim C8: when the in-flight self-fetch request fails (transport error
or undecodable body, both landing in the `catch`), the widget replaces
the payload with empty, clears LoadingFlag, and dispatches no
notification; the handler is total, so no failure escapes to the host. -/
theorem fetch_failure_swallowed (s : SearchState) (req : FetchRequest)
    (h : s.inFlight = some req) :
    resolveFetch s none =
      ({ s with results := emptyResults, loading := false, inFlight := none }, []) := by
  unfold resolveFetch
  rw [h]

/-- witness for `fetch_failure_swallowed` at the in-flight state `sC4`. -/
theorem fetch_failure_swallowed_witness :
    resolveFetch sC4 none =
      ({ sC4 with results := emptyResults, loading := false, inFlight := none }, []) :=
  fetch_failure_swallowed sC4
    { endpoint := "https://api.example.com/search", query := "ash" } (by decide)

/-- Claim C9: when the trimmed query is blank at the moment the Search
Trigger runs (reachable because Clear empties the query without touching
the armed timer), it returns at once: the whole state - LoadingFlag,
ResultPayload, OpenFlag, Query - is unchanged, no notification is
dispatched and no request is issued. -/
theorem trigger_noop_on_empty_query (s : SearchState) (h : strTrim s.searchQuery = "") :
    performSearchStart s = (s, [], none) :=
  performSearchStart_of_blank s h

/-- witness for `trigger_noop_on_empty_query` at the state Clear leaves
behind after typing "ash". -/
theorem trigger_noop_on_empty_query_witness :
    performSearchStart (handleClear sAfterAsh).1 = ((handleClear sAfterAsh).1, [], none) :=
  trigger_noop_on_empty_query (handleClear sAfterAsh).1 (by decide)

/-- Claim C10: a keystroke with non-blank trim leaves the stored payload
untouched, as do Submit, Close, Pick and the start of a search - the
payload is only replaced by an empty-trim keystroke, Clear, or the
recording of a new payload (`setResults` or a settling fetch). -/
theorem nonempty_keystroke_preserves_results (s : SearchState) (q n t : String)
    (hq : strTrim q ≠ "") :
    (handleInput s q).1.results = s.results ∧
    (handleSubmit s).1.results = s.results ∧
    (handleClose s).1.results = s.results ∧
    (handleSuggestionClick s n t).1.results = s.results ∧
    (performSearchStart s).1.results = s.results := by
  refine ⟨?_, rfl, rfl, rfl, ?_⟩
  · unfold handleInput
    simp [hq]
  · unfold performSearchStart
    split
    · rfl
    · split <;> rfl

/-- witness for `nonempty_keystroke_preserves_results` on the keystroke
"ash t" typed after the "Ash Trays" payload arrived. -/
theorem nonempty_keystroke_preserves_results_witness :
    (handleInput sAshLoaded "ash t").1.results = sAshLoaded.results ∧
    (handleSubmit sAshLoaded).1.results = sAshLoaded.results ∧
    (handleClose sAshLoaded).1.results = sAshLoaded.results ∧
    (handleSuggestionClick sAshLoaded "Ash Trays" "suggestion").1.results = sAshLoaded.results ∧
    (performSearchStart sAshLoaded).1.results = sAshLoaded.results :=
  nonempty_keystroke_preserves_results sAshLoaded "ash t" "Ash Trays" "suggestion" (by decide)

end ZbSearch
